import Mathlib

/-!
Shallow embedding of the process-supervision library (package `binary`:
`Binary` process handles and the `Worker` group supervisor), together with
theorems settling the spec claims about it.

The embedding models the Go source faithfully:
* `lookupPath`, `dereferenceLinks`, `New` embed construction-time path
  resolution; the operating system is abstracted as an `OsEnv` record and a
  Go runtime panic is a distinct outcome (`panics`), as is divergence of the
  unbounded symlink-chasing loop (`diverges`, reached when the explicit fuel
  runs out).
* `Binary.RunModel` embeds one complete run of `Binary.Run` plus its exit
  watcher goroutine: the external world (pipe creation results, spawn result,
  dial results, `cmd.Wait` results) is a `RunWorld` record, and the model
  returns which callback class eventually fired, how many SIGTERMs were sent,
  how many dial attempts were made, and what error `die` logged.
* `Binary.ExitModel` embeds `Exit`/`terminate` with `sync.Once` semantics
  (racing callers are serialized by the once guard; each caller that reaches
  `terminate` blocks on the `done` channel, so `doneClosed` is true in the
  state it observes on return).
* `Worker.onErrorCb`, `Worker.dieModel`, `Worker.ExitModel` and
  `Worker.terminateModel` embed the group supervisor's interception and
  teardown logic over an explicit `WorkerState`.
-/

/-- Errors are modelled by their message strings. -/
abbrev GoErr := String

/-- `os.PathSeparator` on the POSIX-like systems the library assumes. -/
def pathSeparator : Char := '/'

/-- The ambient operating system as seen by construction-time path
resolution: `os.Getwd`, `exec.LookPath`, `os.Lstat`-reports-symlink, and
`os.Readlink`. -/
structure OsEnv where
  getwd : Except GoErr String
  lookPath : String → Except GoErr String
  isSymlink : String → Bool
  readlink : String → Except GoErr String

/-- Outcome of `dereferenceLinks`: the Go loop is unbounded, so it may
diverge on a symlink cycle. -/
inductive DerefOutcome
  | diverges
  | fails (e : GoErr)
  | ok (p : String)
  deriving Repr, DecidableEq

/-- Embeds `dereferenceLinks`: follow `os.Readlink` while `os.Lstat` reports
a symlink. The Go loop has no bound; `fuel` makes it a total function, with
exhaustion modelling divergence. -/
def dereferenceLinks (env : OsEnv) : Nat → String → DerefOutcome
  | 0, _ => .diverges
  | fuel + 1, p =>
    if env.isSymlink p then
      match env.readlink p with
      | .error e => .fails e
      | .ok p2 => dereferenceLinks env fuel p2
    else
      .ok p

/-- Outcome of `lookupPath` (and of `New`): `panics` models a Go runtime
panic (index out of range), distinct from returning an error. -/
inductive LookupOutcome
  | panics
  | diverges
  | fails (e : GoErr)
  | ok (p : String)
  deriving Repr, DecidableEq

/-- Embeds `path.Join(dir, filename)` on already-clean inputs (the
`path.Clean` normalisation, irrelevant to the claims, is omitted). -/
def pathJoin (dir filename : String) : String :=
  dir ++ "/" ++ filename

/-- Embeds `lookupPath`. `filename[0]` in Go panics on an empty string, which
is the `panics` branch; otherwise: absolute paths are returned directly,
paths containing a separator are joined to the working directory, and bare
names are searched via `exec.LookPath` and then symlink-dereferenced. -/
def lookupPath (env : OsEnv) (fuel : Nat) (filename : String) : LookupOutcome :=
  if filename.length = 0 then
    .panics
  else if filename.front = pathSeparator then
    .ok filename
  else if filename.contains pathSeparator then
    match env.getwd with
    | .error e => .fails ("could not determine current working directory: " ++ e)
    | .ok dir => .ok (pathJoin dir filename)
  else
    match env.lookPath filename with
    | .error e => .fails ("could not look up binary path: " ++ e)
    | .ok binaryPath =>
      match dereferenceLinks env fuel binaryPath with
      | .diverges => .diverges
      | .fails e => .fails ("could not dereference symbolic link: " ++ e)
      | .ok realPath => .ok realPath

/-- Static configuration of a `Binary` handle. `env := none` models the Go
nil slice (no `WithEnv` call ever made), `some es` a non-nil slice. -/
structure BinaryCfg where
  name : String
  path : String
  port : Nat
  env : Option (List String)
  args : List String
  job : Bool
  deriving Repr, DecidableEq

/-- Outcome of `New`. -/
inductive NewOutcome
  | panics
  | diverges
  | fails (e : GoErr)
  | ok (b : BinaryCfg)
  deriving Repr, DecidableEq

/-- Embeds `New`: resolve the path via `lookupPath`, propagating failure, and
otherwise build the handle with empty configuration. -/
def New (osEnv : OsEnv) (fuel : Nat) (name path : String) (args : List String) : NewOutcome :=
  match lookupPath osEnv fuel path with
  | .panics => .panics
  | .diverges => .diverges
  | .fails e => .fails e
  | .ok realPath =>
    .ok { name := name, path := realPath, port := 0, env := none, args := args, job := false }

/-- Embeds `MustNew`: like `New`, but a returned error becomes a panic. -/
def MustNew (osEnv : OsEnv) (fuel : Nat) (name path : String) (args : List String) :
    Option BinaryCfg :=
  match New osEnv fuel name path args with
  | .panics => none
  | .diverges => none
  | .fails _ => none
  | .ok b => some b

/-- Embeds `Binary.WithEnv`: appends `key=value` to the env slice. A Go
`append` to a nil slice yields a non-nil slice, so the result is `some`. -/
def BinaryCfg.WithEnv (b : BinaryCfg) (key value : String) : BinaryCfg :=
  { b with env := some ((b.env.getD []) ++ [key ++ "=" ++ value]) }

/-- The `os/exec` contract applied at `Run` time by `b.cmd.Env = b.env`: a
nil `Env` makes the child inherit the parent's entire environment, while any
non-nil `Env` (even empty) is used verbatim, with nothing inherited. -/
def effectiveEnv (ambient : List String) (b : BinaryCfg) : List String :=
  match b.env with
  | none => ambient
  | some es => es

/-- `portCheckMaxAttempts` from the source. -/
def portCheckMaxAttempts : Nat := 40

/-- `portCheckWaitTime` from the source, in seconds. -/
def portCheckWaitTimeSeconds : Nat := 2

/-- One run of a `Binary` interacts with the world only through these
results: the two `StdoutPipe`/`StderrPipe` calls, `cmd.Start`, the outcome of
each `net.Dial` readiness attempt (indexed from 0), the message of the last
failed dial, and what `cmd.Wait` eventually returns — `natWaitErr` if the
process ends on its own, `sigWaitErr` if it ends because the handle sent it
SIGTERM. -/
structure RunWorld where
  stdoutPipeErr : Option GoErr
  stderrPipeErr : Option GoErr
  startErr : Option GoErr
  portAccepts : Nat → Bool
  lastDialErr : GoErr
  natWaitErr : Option GoErr
  sigWaitErr : Option GoErr

/-- Which callback class a run of the handle eventually fires.
Each `Binary.Run` fires at most one class, at most once: the only call sites
of `runErrorCallbacks`/`runExitCallbacks` are in the single exit-watcher
goroutine, which runs each at most once before closing `done`. -/
inductive CallbackFiring
  | fired_error (e : GoErr)
  | fired_exit
  | fired_none
  deriving Repr, DecidableEq

/-- Observable outcome of one complete run: whether the exit-watcher
goroutine was spawned, how many readiness dial attempts were made, how many
SIGTERMs the handle delivered, the error `die` logged (if `die` ran), and
which callback class fired. -/
structure RunResult where
  watcherCreated : Bool
  attempts : Nat
  signalsSent : Nat
  dieLog : Option GoErr
  firing : CallbackFiring
  deriving Repr, DecidableEq

/-- Whether some dial attempt within the bounded window succeeds. -/
def portOpens (w : RunWorld) : Bool :=
  (List.range portCheckMaxAttempts).any (fun i => w.portAccepts i)

/-- Number of dial attempts `waitForPort` makes: it stops at the first
success, and otherwise exhausts the whole window. -/
def dialAttempts (w : RunWorld) : Nat :=
  match (List.range portCheckMaxAttempts).findIdx? (fun i => w.portAccepts i) with
  | some i => i + 1
  | none => portCheckMaxAttempts

/-- The error `die` is invoked with when `waitForPort` exhausts its attempts
(`fmt.Errorf("failed to open [%s]'s port [%d]: %w", ...)`). -/
def readinessErr (name : String) (port : Nat) (lastDialErr : GoErr) : GoErr :=
  "failed to open [" ++ name ++ "]'s port [" ++ toString port ++ "]: " ++ lastDialErr

/-- Embeds the exit-watcher goroutine's classification
(`if err := b.cmd.Wait(); err != nil && !b.exiting { runErrorCallbacks(err); return }`
`; runExitCallbacks()`): a wait error with the `exiting` flag unset fires
the error callbacks with that error, anything else fires the exit
callbacks. -/
def classifyExit (exiting : Bool) (waitErr : Option GoErr) : CallbackFiring :=
  match waitErr with
  | some e => if exiting then .fired_exit else .fired_error e
  | none => .fired_exit

/-- Embeds one complete run of `Binary.Run` (with `Exit` never invoked
externally, so the `exiting` flag stays false), together with the eventual
action of the exit watcher once the process terminates:
* a pipe-creation or spawn failure calls `die`, which only logs — the
  watcher is never created, no signal is sent, and no callbacks fire;
* with a nonzero port whose window is exhausted, `die` is passed the
  readiness error but merely logs it and calls `terminate`, which sends one
  SIGTERM and blocks on `done`; the watcher then classifies `cmd.Wait`'s
  post-signal result with `exiting = false`;
* otherwise the watcher classifies the natural `cmd.Wait` result.
The readiness-timeout branch assumes the process is still running when the
window closes (`isRunning` true), which is the situation the readiness
claims describe. -/
def BinaryCfg.RunModel (b : BinaryCfg) (w : RunWorld) : RunResult :=
  match w.stdoutPipeErr with
  | some e =>
    { watcherCreated := false, attempts := 0, signalsSent := 0,
      dieLog := some ("could not listen to stdout pipe: " ++ e), firing := .fired_none }
  | none =>
  match w.stderrPipeErr with
  | some e =>
    { watcherCreated := false, attempts := 0, signalsSent := 0,
      dieLog := some ("could not listen to stderr pipe: " ++ e), firing := .fired_none }
  | none =>
  match w.startErr with
  | some e =>
    { watcherCreated := false, attempts := 0, signalsSent := 0,
      dieLog := some ("could not start process: " ++ e), firing := .fired_none }
  | none =>
    if b.port ≠ 0 then
      if portOpens w then
        { watcherCreated := true, attempts := dialAttempts w, signalsSent := 0,
          dieLog := none, firing := classifyExit false w.natWaitErr }
      else
        { watcherCreated := true, attempts := portCheckMaxAttempts, signalsSent := 1,
          dieLog := some (readinessErr b.name b.port w.lastDialErr),
          firing := classifyExit false w.sigWaitErr }
    else
      { watcherCreated := true, attempts := 0, signalsSent := 0,
        dieLog := none, firing := classifyExit false w.natWaitErr }

/-- State of a started handle as seen by `Exit`/`terminate`: the
`sync.Once` guard (`onceUsed`), the `exiting` flag, whether `cmd.Process`
is non-nil (`started`), whether the process has exited, whether the `done`
channel has been closed by the watcher, and how many SIGTERMs were
delivered. -/
structure ExitState where
  onceUsed : Bool
  exiting : Bool
  started : Bool
  processExited : Bool
  doneClosed : Bool
  signalsSent : Nat
  deriving Repr, DecidableEq

/-- Embeds `Binary.isRunning`:
`b.cmd != nil && b.cmd.Process != nil && (b.cmd.ProcessState == nil || !Exited())`. -/
def ExitState.isRunning (s : ExitState) : Bool :=
  s.started && !s.processExited

/-- Embeds `Binary.Exit` together with `Binary.terminate`, under `sync.Once`
semantics: racing callers are serialized by the once guard, every later or
concurrent call blocks until the single execution completes and then returns
without re-executing (modelled as the identity on the post state). The single
execution sets `exiting`, and — if the process is running — sends one
SIGTERM and blocks on the `done` channel, which the watcher closes only
after the process has exited and the callbacks have run; so on return the
process has exited and `done` is closed. -/
def ExitState.Exit (s : ExitState) : ExitState :=
  if s.onceUsed then s
  else
    let s1 := { s with onceUsed := true, exiting := true }
    if s1.isRunning then
      { s1 with signalsSent := s1.signalsSent + 1, processExited := true, doneClosed := true }
    else s1

/-- Observable state of a `Worker` group supervisor: the `terminating` flag,
the `terminateOnce` guard, the aggregate error collector (`w.errors`, an
ordered multierror list), the errors passed to the worker-level error
callbacks by `die`, and the names of the binaries whose `Exit()` has been
invoked, in invocation order. -/
structure WorkerState where
  terminating : Bool
  onceUsed : Bool
  errors : List GoErr
  groupErrFired : List GoErr
  exitCalls : List String
  deriving Repr, DecidableEq

/-- The error wrapping in `Worker.runBinary`'s error interception:
`fmt.Errorf("[%s] encountered a fatal error: %w", binary.Name(), err)`. -/
def wrapBinaryErr (name e : GoErr) : GoErr :=
  "[" ++ name ++ "] encountered a fatal error: " ++ e

/-- The downward loop of `Worker.terminate`
(`for i := len(w.binaries)-1; i >= 0; i--`), collecting the `Exit()` calls it
issues in order. In sequential mode each call is executed inline, so this is
also the completion order; in concurrent mode it is the dispatch order. -/
def exitLoop (bs : List String) : Nat → List String
  | 0 => []
  | n + 1 =>
    match bs[n]? with
    | some b => b :: exitLoop bs n
    | none => exitLoop bs n

/-- Embeds `Worker.terminate`: sets the `terminating` flag, then issues
`Exit()` on the binaries via the downward loop. -/
def Worker.terminateModel (bs : List String) (s : WorkerState) : WorkerState :=
  { s with terminating := true, exitCalls := s.exitCalls ++ exitLoop bs bs.length }

/-- Embeds `Worker.die`: under the `terminateOnce` guard, fire the
worker-level error callbacks with the error, then terminate. -/
def Worker.dieModel (bs : List String) (e : GoErr) (s : WorkerState) : WorkerState :=
  if s.onceUsed then s
  else Worker.terminateModel bs
    { s with onceUsed := true, groupErrFired := s.groupErrFired ++ [e] }

/-- Embeds `Worker.Exit`: under the `terminateOnce` guard, terminate. -/
def Worker.ExitModel (bs : List String) (s : WorkerState) : WorkerState :=
  if s.onceUsed then s
  else Worker.terminateModel bs { s with onceUsed := true }

/-- Embeds the error-interception callback `Worker.runBinary` installs via
`binary.OnError`: wrap the member error with the binary's name, append it to
the aggregate collector under the lock, and then — only if the group is not
already terminating — call `die`. -/
def Worker.onErrorCb (bs : List String) (name e : GoErr) (s : WorkerState) : WorkerState :=
  let e2 := wrapBinaryErr name e
  let s1 := { s with errors := s.errors ++ [e2] }
  if s1.terminating then s1 else Worker.dieModel bs e2 s1

/-- Reusable concrete configuration: a handle with a readiness port. -/
def pgCfg : BinaryCfg :=
  { name := "pg", path := "/bin/pg", port := 5432, env := none, args := [], job := false }

/-- Reusable concrete world: the readiness port never accepts, and the
process, once SIGTERMed, makes `cmd.Wait` return the usual signal error. -/
def pgTimeoutWorld : RunWorld :=
  { stdoutPipeErr := none, stderrPipeErr := none, startErr := none,
    portAccepts := fun _ => false, lastDialErr := "connection refused",
    natWaitErr := none, sigWaitErr := some "signal: terminated" }

/-- Reusable concrete OS environment in which `/s` is a symbolic link. -/
def symlinkEnv : OsEnv :=
  { getwd := .ok "/w", lookPath := fun n => if n == "sh" then .ok "/s" else .error "not found",
    isSymlink := fun p => p == "/s", readlink := fun p => if p == "/s" then .ok "/real" else .error "EINVAL" }

/-! ### Helper lemmas -/

/-- The watcher's classification always fires one of the two classes. -/
theorem classifyExit_ne_none (x : Bool) (we : Option GoErr) :
    classifyExit x we ≠ CallbackFiring.fired_none := by
  unfold classifyExit
  cases we with
  | none => simp
  | some e => cases x <;> simp

/-- A successful `dereferenceLinks` result is not itself a symbolic link. -/
theorem dereferenceLinks_ok_not_symlink (env : OsEnv) :
    ∀ (fuel : Nat) (p q : String), dereferenceLinks env fuel p = .ok q →
      env.isSymlink q = false := by
  intro fuel
  induction fuel with
  | zero => intro p q h; simp [dereferenceLinks] at h
  | succ n ih =>
    intro p q h
    unfold dereferenceLinks at h
    by_cases hs : env.isSymlink p = true
    · rw [if_pos hs] at h
      cases hr : env.readlink p with
      | error e => rw [hr] at h; cases h
      | ok p2 => rw [hr] at h; exact ih p2 q h
    · rw [if_neg hs] at h
      cases h
      exact Bool.not_eq_true _ |>.mp hs

/-- The downward loop of `Worker.terminate` visits a prefix in reverse. -/
theorem exitLoop_take (bs : List String) :
    ∀ n, n ≤ bs.length → exitLoop bs n = (bs.take n).reverse := by
  intro n
  induction n with
  | zero => intro _; simp [exitLoop]
  | succ m ih =>
    intro h
    have hm : m < bs.length := Nat.lt_of_succ_le h
    have h1 : bs.take (m + 1) = bs.take m ++ [bs[m]] := by
      rw [List.take_succ, List.getElem?_eq_getElem hm]; rfl
    rw [h1]
    simp only [exitLoop, List.getElem?_eq_getElem hm]
    rw [ih (Nat.le_of_lt hm), List.reverse_append, List.reverse_singleton, List.singleton_append]

/-- The downward loop over the whole list yields the reverse. -/
theorem exitLoop_eq_reverse (bs : List String) : exitLoop bs bs.length = bs.reverse := by
  rw [exitLoop_take bs bs.length (Nat.le_refl _), List.take_length]

/-- After any `Exit` call the once guard is used. -/
theorem ExitState.Exit_onceUsed (s : ExitState) : s.Exit.onceUsed = true := by
  unfold ExitState.Exit
  by_cases h1 : s.onceUsed = true
  · rw [if_pos h1]; exact h1
  · rw [if_neg h1]
    dsimp only
    split <;> rfl

/-- `Exit` on a state whose once guard is used is a no-op. -/
theorem ExitState.Exit_of_onceUsed (s : ExitState) (h : s.onceUsed = true) :
    s.Exit = s := by
  unfold ExitState.Exit
  rw [if_pos h]

/-- `Exit` is idempotent. -/
theorem ExitState.Exit_idem (s : ExitState) : s.Exit.Exit = s.Exit :=
  ExitState.Exit_of_onceUsed _ (ExitState.Exit_onceUsed s)

/-- Any positive number of `Exit` calls has the effect of one. -/
theorem ExitState.Exit_iterate (s : ExitState) :
    ∀ n, 1 ≤ n → ExitState.Exit^[n] s = s.Exit := by
  intro n
  induction n with
  | zero => intro h; cases h
  | succ m ih =>
    intro _
    rcases Nat.eq_zero_or_pos m with hm | hm
    · subst hm; simp
    · rw [Function.iterate_succ_apply', ih hm, ExitState.Exit_idem]

/-! ### Claim theorems -/

/-- C1: the claim asserts that when spawning fails, Run returns immediately
without creating the exit watcher AND the registered error callbacks fire
with the spawn error. On spawn failure the code calls `die`, which only logs
the error and returns — the watcher is indeed not created, but no error
callback ever fires (contradicting `OnError`'s own documentation,
"calls the given callback if this binary fails to start", and making
`RunAsJob` return nil on a failed spawn). This theorem evaluates the model
at a failing input: the spawn error is only logged, the watcher is not
created, and no callback class fires. -/
theorem run_spawn_failure_fires_no_callbacks :
    BinaryCfg.RunModel
      { name := "b", path := "/bin/x", port := 0, env := none, args := [], job := false }
      { stdoutPipeErr := none, stderrPipeErr := none,
        startErr := some "fork/exec /bin/x: permission denied",
        portAccepts := fun _ => false, lastDialErr := "",
        natWaitErr := none, sigWaitErr := none } =
      { watcherCreated := false, attempts := 0, signalsSent := 0,
        dieLog := some "could not start process: fork/exec /bin/x: permission denied",
        firing := CallbackFiring.fired_none } := rfl

/-- C2 counterexample: with a readiness port that never accepts, the error
callbacks fire with the post-SIGTERM `cmd.Wait` error ("signal: terminated"),
which is not the readiness-timeout error — that error is only logged by
`die`. This refutes the claim that the callbacks fire "with a
readiness-timeout error (not some other error)". -/
theorem run_readiness_timeout_fires_wait_error_counterexample :
    (BinaryCfg.RunModel pgCfg pgTimeoutWorld).firing =
      CallbackFiring.fired_error "signal: terminated" ∧
    (BinaryCfg.RunModel pgCfg pgTimeoutWorld).dieLog =
      some (readinessErr "pg" 5432 "connection refused") ∧
    CallbackFiring.fired_error "signal: terminated" ≠
      CallbackFiring.fired_error (readinessErr "pg" 5432 "connection refused") :=
  ⟨rfl, rfl, by decide⟩

/-- C2 amended: for every Binary with a nonzero readiness port whose port
never accepts a connection, Run blocks for the full bounded polling window
(all 40 attempts at 2-second intervals), then forcibly terminates the
process with exactly one SIGTERM; the error callbacks then fire exactly once,
but with the process-wait error produced by the forced termination — the
readiness-timeout error itself is only logged by `die`, never passed to the
callbacks. -/
theorem run_readiness_timeout_amended (b : BinaryCfg) (w : RunWorld) (e : GoErr)
    (hport : b.port ≠ 0) (hopen : portOpens w = false)
    (h1 : w.stdoutPipeErr = none) (h2 : w.stderrPipeErr = none) (h3 : w.startErr = none)
    (hsig : w.sigWaitErr = some e) :
    BinaryCfg.RunModel b w =
      { watcherCreated := true, attempts := portCheckMaxAttempts, signalsSent := 1,
        dieLog := some (readinessErr b.name b.port w.lastDialErr),
        firing := CallbackFiring.fired_error e } := by
  unfold BinaryCfg.RunModel
  rw [h1, h2, h3]
  simp [hport, hopen, classifyExit, hsig]

/-- Witness for C2 amended at a concrete configuration and world. -/
theorem run_readiness_timeout_amended_witness :
    BinaryCfg.RunModel pgCfg pgTimeoutWorld =
      { watcherCreated := true, attempts := portCheckMaxAttempts, signalsSent := 1,
        dieLog := some (readinessErr pgCfg.name pgCfg.port pgTimeoutWorld.lastDialErr),
        firing := CallbackFiring.fired_error "signal: terminated" } :=
  run_readiness_timeout_amended pgCfg pgTimeoutWorld "signal: terminated"
    (by decide) (by decide) rfl rfl rfl rfl

/-- C3 counterexample: a run whose stdout pipe cannot be created fires
neither callback class — refuting "exactly one of the two callback classes
fires, ... never neither" for every run. -/
theorem run_pipe_failure_fires_neither_class :
    (BinaryCfg.RunModel
      { name := "j", path := "/bin/j", port := 0, env := none, args := [], job := true }
      { stdoutPipeErr := some "broken pipe", stderrPipeErr := none, startErr := none,
        portAccepts := fun _ => false, lastDialErr := "",
        natWaitErr := none, sigWaitErr := none }).firing = CallbackFiring.fired_none := rfl

/-- C3 amended: exactly one of the two callback classes fires, exactly once,
for every run in which the pipes are created and the process spawns
successfully (equivalently: in which the exit watcher is created); when pipe
creation or spawning fails, neither class fires. Firing at most one class at
most once is structural in the model: the single exit watcher performs one
classification. -/
theorem run_callback_exclusivity_amended (b : BinaryCfg) (w : RunWorld) :
    ((BinaryCfg.RunModel b w).firing == CallbackFiring.fired_none) =
      !(BinaryCfg.RunModel b w).watcherCreated ∧
    (BinaryCfg.RunModel b w).watcherCreated =
      (w.stdoutPipeErr.isNone && w.stderrPipeErr.isNone && w.startErr.isNone) := by
  unfold BinaryCfg.RunModel
  cases h1 : w.stdoutPipeErr with
  | some e => simp
  | none =>
  cases h2 : w.stderrPipeErr with
  | some e => simp
  | none =>
  cases h3 : w.startErr with
  | some e => simp
  | none =>
    by_cases hp : b.port = 0
    · simp [hp, beq_eq_false_iff_ne, classifyExit_ne_none]
    · by_cases ho : portOpens w = true
      · simp [hp, ho, beq_eq_false_iff_ne, classifyExit_ne_none]
      · simp [hp, ho, beq_eq_false_iff_ne, classifyExit_ne_none]

/-- C4: exit classification, performed by the watcher when the process
terminates: with the `exiting` flag set (Exit() was called) the exit
callbacks fire regardless of the wait result; otherwise a process-wait error
(including a nonzero exit status) fires the error callbacks with the
underlying error, and a clean wait with no prior Exit() fires the exit
callbacks. -/
theorem exit_classification_rules (e : GoErr) :
    classifyExit true (some e) = CallbackFiring.fired_exit ∧
    classifyExit true none = CallbackFiring.fired_exit ∧
    classifyExit false (some e) = CallbackFiring.fired_error e ∧
    classifyExit false none = CallbackFiring.fired_exit :=
  ⟨rfl, rfl, rfl, rfl⟩

/-- C5 counterexample: when the group is already terminating, a member
error-interception callback still appends the wrapped error to the aggregate
collector (the append in `runBinary`'s `OnError` closure is unconditional;
only the `die` call is guarded by `!w.terminating`) — refuting "the aggregate
error collector is left unchanged (no append)". No second teardown is
initiated: the Exit-call list is unchanged. -/
theorem worker_error_cb_appends_while_terminating :
    (Worker.onErrorCb ["a", "b"] "b" "boom"
      { terminating := true, onceUsed := true, errors := [],
        groupErrFired := [], exitCalls := ["b", "a"] }).errors
      = ["[b] encountered a fatal error: boom"] ∧
    (Worker.onErrorCb ["a", "b"] "b" "boom"
      { terminating := true, onceUsed := true, errors := [],
        groupErrFired := [], exitCalls := ["b", "a"] }).errors ≠ ([] : List GoErr) ∧
    (Worker.onErrorCb ["a", "b"] "b" "boom"
      { terminating := true, onceUsed := true, errors := [],
        groupErrFired := [], exitCalls := ["b", "a"] }).exitCalls = ["b", "a"] :=
  ⟨rfl, by decide, rfl⟩

/-- C5 amended: when the error-interception callback fires and the group is
already terminating, the wrapped error is still appended to the aggregate
collector, but nothing else changes — in particular no second teardown is
initiated; when the group is not terminating (and the once guard is unused),
the append happens and teardown is initiated. -/
theorem worker_error_cb_amended (bs : List String) (name e : GoErr) (s : WorkerState) :
    (s.terminating = true →
      Worker.onErrorCb bs name e s = { s with errors := s.errors ++ [wrapBinaryErr name e] }) ∧
    (s.terminating = false → s.onceUsed = false →
      Worker.onErrorCb bs name e s =
        Worker.terminateModel bs
          { s with errors := s.errors ++ [wrapBinaryErr name e], onceUsed := true,
                   groupErrFired := s.groupErrFired ++ [wrapBinaryErr name e] }) := by
  constructor
  · intro ht
    unfold Worker.onErrorCb
    simp [ht]
  · intro ht ho
    unfold Worker.onErrorCb Worker.dieModel
    simp [ht, ho]

/-- Witness for C5 amended, applied in both the already-terminating and the
not-yet-terminating situations. -/
theorem worker_error_cb_amended_witness :
    Worker.onErrorCb ["a"] "a" "x"
      { terminating := true, onceUsed := true, errors := [],
        groupErrFired := [], exitCalls := ["a"] } =
      { terminating := true, onceUsed := true, errors := [wrapBinaryErr "a" "x"],
        groupErrFired := [], exitCalls := ["a"] } ∧
    Worker.onErrorCb ["a"] "a" "x"
      { terminating := false, onceUsed := false, errors := [],
        groupErrFired := [], exitCalls := [] } =
      Worker.terminateModel ["a"]
        { terminating := false, onceUsed := true, errors := [wrapBinaryErr "a" "x"],
          groupErrFired := [wrapBinaryErr "a" "x"], exitCalls := [] } :=
  ⟨(worker_error_cb_amended ["a"] "a" "x" _).1 rfl,
   (worker_error_cb_amended ["a"] "a" "x" _).2 rfl rfl⟩

/-- C6: group teardown — whether reached through `Exit()` or through a
cascade (`die`) — sets the `terminating` flag and issues `Exit()` on the
member binaries in strict reverse registration order; in sequential mode the
calls in `exitCalls` are executed inline, each completing before the next
begins, so this is also the completion order. -/
theorem worker_teardown_reverse_order (bs : List String) (s : WorkerState) (e : GoErr)
    (h : s.onceUsed = false) :
    (Worker.terminateModel bs s).terminating = true ∧
    (Worker.terminateModel bs s).exitCalls = s.exitCalls ++ bs.reverse ∧
    (Worker.ExitModel bs s).exitCalls = s.exitCalls ++ bs.reverse ∧
    (Worker.dieModel bs e s).exitCalls = s.exitCalls ++ bs.reverse := by
  have hrev := exitLoop_eq_reverse bs
  refine ⟨rfl, ?_, ?_, ?_⟩
  · unfold Worker.terminateModel
    rw [hrev]
  · unfold Worker.ExitModel Worker.terminateModel
    simp [h, hrev]
  · unfold Worker.dieModel Worker.terminateModel
    simp [h, hrev]

/-- Witness for C6 at a three-member group [a, b, c]: Exit is issued on c,
then b, then a. -/
theorem worker_teardown_reverse_order_witness :
    (Worker.terminateModel ["a", "b", "c"]
      { terminating := false, onceUsed := false, errors := [],
        groupErrFired := [], exitCalls := [] }).terminating = true ∧
    (Worker.terminateModel ["a", "b", "c"]
      { terminating := false, onceUsed := false, errors := [],
        groupErrFired := [], exitCalls := [] }).exitCalls = [] ++ ["a", "b", "c"].reverse ∧
    (Worker.ExitModel ["a", "b", "c"]
      { terminating := false, onceUsed := false, errors := [],
        groupErrFired := [], exitCalls := [] }).exitCalls = [] ++ ["a", "b", "c"].reverse ∧
    (Worker.dieModel ["a", "b", "c"] "boom"
      { terminating := false, onceUsed := false, errors := [],
        groupErrFired := [], exitCalls := [] }).exitCalls = [] ++ ["a", "b", "c"].reverse :=
  worker_teardown_reverse_order ["a", "b", "c"] _ "boom" rfl

/-- C7: termination of a handle is idempotent. Any positive number of
(`sync.Once`-serialized, possibly racing) `Exit()` calls on a started,
still-running handle produces exactly one SIGTERM delivery, and the state
every caller observes on return has the process exited and the `done`
completion signal fired (each caller blocks in `terminate` on `done`, or in
`sync.Once.Do` until the single execution finishes). -/
theorem binary_exit_idempotent (s : ExitState) (n : Nat)
    (h0 : s.onceUsed = false) (h1 : s.started = true) (h2 : s.processExited = false)
    (hn : 1 ≤ n) :
    ExitState.Exit^[n] s =
      { s with onceUsed := true, exiting := true, processExited := true,
               doneClosed := true, signalsSent := s.signalsSent + 1 } := by
  rw [ExitState.Exit_iterate s n hn]
  unfold ExitState.Exit
  rw [if_neg (by rw [h0]; exact Bool.false_ne_true)]
  dsimp only
  rw [if_pos (by simp [ExitState.isRunning, h1, h2])]

/-- Witness for C7: three racing/repeated Exit calls on a fresh running
handle amount to the single execution. -/
theorem binary_exit_idempotent_witness :
    ExitState.Exit^[3]
      { onceUsed := false, exiting := false, started := true, processExited := false,
        doneClosed := false, signalsSent := 0 } =
      { onceUsed := true, exiting := true, started := true, processExited := true,
        doneClosed := true, signalsSent := 1 } :=
  binary_exit_idempotent _ 3 rfl rfl rfl (by decide)

/-- C8 counterexample: a Binary constructed from an absolute path that is a
symbolic link stores that path as-is — the absolute-path branch of
`lookupPath` performs no symlink dereferencing (only the search-path branch
does), refuting "the stored executable path is absolute with every chain of
symbolic links fully dereferenced at construction time". -/
theorem lookupPath_absolute_symlink_not_dereferenced :
    New symlinkEnv 3 "zk" "/s" [] =
      NewOutcome.ok { name := "zk", path := "/s", port := 0, env := none,
                      args := [], job := false } ∧
    symlinkEnv.isSymlink "/s" = true ∧
    symlinkEnv.readlink "/s" = Except.ok "/real" :=
  ⟨rfl, rfl, rfl⟩

/-- C8 amended: path resolution follows the algorithm — an absolute path is
used as-is, a path containing a separator is joined to the current working
directory, and a bare name is searched on the search path — but only the
search-path branch dereferences symbolic links; an absolute or
separator-containing path is stored as given, possibly still a symlink. When
the search-path branch succeeds, the stored path has every chain of symbolic
links fully dereferenced (it is not itself a symlink). -/
theorem lookupPath_resolution_amended (env : OsEnv) (fuel : Nat) (f : String)
    (h0 : f.length ≠ 0) :
    (f.front = pathSeparator → lookupPath env fuel f = LookupOutcome.ok f) ∧
    (f.front ≠ pathSeparator → f.contains pathSeparator = true →
      lookupPath env fuel f =
        match env.getwd with
        | .error e => .fails ("could not determine current working directory: " ++ e)
        | .ok dir => .ok (pathJoin dir f)) ∧
    (f.front ≠ pathSeparator → f.contains pathSeparator = false →
      lookupPath env fuel f =
        match env.lookPath f with
        | .error e => .fails ("could not look up binary path: " ++ e)
        | .ok binaryPath =>
          match dereferenceLinks env fuel binaryPath with
          | .diverges => .diverges
          | .fails e => .fails ("could not dereference symbolic link: " ++ e)
          | .ok realPath => .ok realPath) ∧
    (∀ p q, dereferenceLinks env fuel p = DerefOutcome.ok q → env.isSymlink q = false) := by
  refine ⟨?_, ?_, ?_, dereferenceLinks_ok_not_symlink env fuel⟩
  · intro habs
    unfold lookupPath
    rw [if_neg h0, if_pos habs]
  · intro habs hsep
    unfold lookupPath
    rw [if_neg h0, if_neg habs, if_pos hsep]
  · intro habs hsep
    unfold lookupPath
    rw [if_neg h0, if_neg habs,
      if_neg (show ¬f.contains pathSeparator = true by rw [hsep]; exact Bool.false_ne_true)]

/-- Witness for C8 amended: the absolute branch at a concrete environment
and path. -/
theorem lookupPath_resolution_amended_witness :
    lookupPath symlinkEnv 3 "/bin/tool" = LookupOutcome.ok "/bin/tool" :=
  (lookupPath_resolution_amended symlinkEnv 3 "/bin/tool" (by decide)).1 (by decide)

/-- C9: constructing a Binary with an empty path string panics — the model's
`panics` outcome, reached at `lookupPath`'s first-character test
(`filename[0]`, a Go index-out-of-range panic on an empty string) — rather
than returning a path-resolution error (`fails`, a distinct constructor).
`MustNew` likewise panics before it can inspect an error. -/
theorem new_empty_path_panics (osEnv : OsEnv) (fuel : Nat) (name : String)
    (args : List String) :
    New osEnv fuel name "" args = NewOutcome.panics ∧
    MustNew osEnv fuel name "" args = none :=
  ⟨rfl, rfl⟩

/-- C10: the configured environment fully replaces the ambient environment
only when at least one variable was set. A handle whose env list is nil (as
`New` constructs it, `WithEnv` never called) spawns inheriting the entire
ambient environment; after any `WithEnv` call the env list is non-nil and
the child receives exactly the configured `key=value` entries — the result
no longer depends on the ambient environment at all. -/
theorem with_env_replaces_ambient (ambient ambient2 : List String) (b : BinaryCfg)
    (k v : String) :
    effectiveEnv ambient { b with env := none } = ambient ∧
    effectiveEnv ambient (b.WithEnv k v) = b.env.getD [] ++ [k ++ "=" ++ v] ∧
    (b.WithEnv k v).env = some (b.env.getD [] ++ [k ++ "=" ++ v]) ∧
    effectiveEnv ambient (b.WithEnv k v) = effectiveEnv ambient2 (b.WithEnv k v) :=
  ⟨rfl, rfl, rfl, rfl⟩
